import Mathlib

/-!
# GD32H7 bare-metal USART driver (`drivers/baremetal/drv_usart.c`)

A shallow embedding of the driver and the properties its specification states.

Conventions of the embedding.

* Every function returns, next to its C return value, the list of calls it issued, in
  program order (`List Call`).  The vendor library functions are the alphabet of that
  list; the one entry that is not a vendor function, `Call.enter_gd32_gpio_clk_enable`,
  records that `gd32_gpio_configure` called the driver's own `gd32_gpio_clk_enable`.
* `uint32_t` values are `Nat` with an explicit `% 2 ^ 32`; `int`, `long` and promoted
  `char` values are `Int`.
* A C string is the `List Char` of its characters before the terminating NUL.
* Undefined behaviour of C (a read past the string terminator, a shift count outside
  `0..31`, an `atoi` result that does not fit `int`, a NULL dereference) is `none`
  (`Run.undefined` for `print_char`).
* The constants of the vendor headers (`gd32h7xx.h`) and the build flags of the board
  (`BSP_USING_UARTn`) are not part of the driver file; they are the fields of `Board`.
-/

namespace DrvUsart

/-! ## Vendor constants -/

/-- The clock identifiers (`rcu_periph_enum`) the driver passes to
`rcu_periph_clock_enable`. -/
inductive rcu_periph_enum
  | RCU_USART0 | RCU_USART1 | RCU_USART2 | RCU_UART3 | RCU_UART4
  | RCU_GPIOA | RCU_GPIOB | RCU_GPIOC | RCU_GPIOD
  | RCU_GPIOE | RCU_GPIOF | RCU_GPIOG | RCU_GPIOH
  deriving DecidableEq, Repr

/-- The symbolic argument macros of the vendor library that the driver passes through
unchanged. -/
inductive SdkConst
  | USART_PM_NONE | USART_WL_8BIT | USART_STB_1BIT
  | USART_RECEIVE_ENABLE | USART_TRANSMIT_ENABLE | USART_FLAG_TBE
  | GPIO_MODE_AF | GPIO_PUPD_PULLUP | GPIO_OTYPE_PP | GPIO_OSPEED_60MHZ
  | GPIO_AF_7 | GPIO_AF_8
  deriving DecidableEq, Repr

/-- The value `usart_flag_get` reads from the hardware. -/
inductive FlagStatus
  | RESET | SET
  deriving DecidableEq, Repr

/-- One call issued by the driver. -/
inductive Call
  | enter_gd32_gpio_clk_enable (gpiox : Nat)
  | rcu_periph_clock_enable (periph : rcu_periph_enum)
  | usart_deinit (usart_periph : Nat)
  | usart_baudrate_set (usart_periph : Nat) (baudval : Nat)
  | usart_parity_config (usart_periph : Nat) (paritycfg : SdkConst)
  | usart_word_length_set (usart_periph : Nat) (wlen : SdkConst)
  | usart_stop_bit_set (usart_periph : Nat) (stblen : SdkConst)
  | usart_receive_config (usart_periph : Nat) (rxconfig : SdkConst)
  | usart_transmit_config (usart_periph : Nat) (txconfig : SdkConst)
  | usart_enable (usart_periph : Nat)
  | gpio_mode_set (gpio_periph : Nat) (mode : SdkConst) (pull_up_down : SdkConst) (pin : Nat)
  | gpio_output_options_set (gpio_periph : Nat) (otype : SdkConst) (speed : SdkConst)
      (pin : Nat)
  | gpio_af_set (gpio_periph : Nat) (alt_func_num : SdkConst) (pin : Nat)
  | usart_flag_get (usart_periph : Nat) (flag : SdkConst)
  | usart_data_transmit (usart_periph : Nat) (data : Nat)
  deriving DecidableEq, Repr

/-- The address constants of the vendor headers and the build flags of the board. -/
structure Board where
  GPIOA : Nat
  GPIOB : Nat
  GPIOC : Nat
  GPIOD : Nat
  GPIOE : Nat
  GPIOF : Nat
  GPIOG : Nat
  GPIOH : Nat
  USART0 : Nat
  USART1 : Nat
  USART2 : Nat
  UART3 : Nat
  UART4 : Nat
  BSP_USING_UART1 : Bool
  BSP_USING_UART2 : Bool
  BSP_USING_UART3 : Bool
  BSP_USING_UART4 : Bool
  BSP_USING_UART5 : Bool
  deriving DecidableEq, Repr

/-! ## The driver -/

/-- GD32 UART config structure (lines 20-27). -/
structure gd32_uart_config where
  name : List Char
  «instance» : Nat
  irq_type : Int
  tx_pin_name : List Char
  rx_pin_name : List Char
  deriving DecidableEq, Repr

/-- Conversion of an `int` to `uint32_t`. -/
def to_uint32 (x : Int) : Nat := (x % 4294967296).toNat

/-- The read `s[i]` of a C string: the character code, the terminating NUL at
`i = s.length`, undefined past it. -/
def c_index (s : List Char) (i : Nat) : Option Int :=
  if h : i < s.length then some ((s.get ⟨i, h⟩).toNat : Int)
  else if i = s.length then some 0
  else none

/-- The pointer `&s[i]` read as a C string: undefined when it points past the
terminating NUL. -/
def c_suffix (s : List Char) (i : Nat) : Option (List Char) :=
  if i ≤ s.length then some (s.drop i) else none

/-- The `isspace` of the C locale. -/
def isspace (c : Char) : Bool := c.toNat = 32 || (9 ≤ c.toNat && c.toNat ≤ 13)

/-- The `isdigit` of the C library. -/
def isdigit (c : Char) : Bool := 48 ≤ c.toNat && c.toNat ≤ 57

/-- The digit loop of `atoi`: the value of the longest prefix of decimal digits. -/
def atoi_digits (acc : Nat) : List Char → Nat
  | [] => acc
  | c :: cs => if isdigit c then atoi_digits (acc * 10 + (c.toNat - 48)) cs else acc

/-- The `atoi` of the C library: leading white space, an optional sign, then decimal
digits up to the first other character; undefined when the value does not fit `int`. -/
def atoi (s : List Char) : Option Int :=
  let s1 := s.dropWhile isspace
  let v : Int :=
    match s1 with
    | '-' :: r => - (atoi_digits 0 r : Int)
    | '+' :: r => (atoi_digits 0 r : Int)
    | _ => (atoi_digits 0 s1 : Int)
  if -2147483648 ≤ v ∧ v ≤ 2147483647 then some v else none

/-- Lines 51-86: the switch over the compiled-in UART instances, in source order. -/
def gd32_uart_clk_enable (b : Board) (config : gd32_uart_config) : Int × List Call :=
  if b.BSP_USING_UART1 && config.«instance» == b.USART0 then
    (0, [Call.rcu_periph_clock_enable rcu_periph_enum.RCU_USART0])
  else if b.BSP_USING_UART2 && config.«instance» == b.USART1 then
    (0, [Call.rcu_periph_clock_enable rcu_periph_enum.RCU_USART1])
  else if b.BSP_USING_UART3 && config.«instance» == b.USART2 then
    (0, [Call.rcu_periph_clock_enable rcu_periph_enum.RCU_USART2])
  else if b.BSP_USING_UART4 && config.«instance» == b.UART3 then
    (0, [Call.rcu_periph_clock_enable rcu_periph_enum.RCU_UART3])
  else if b.BSP_USING_UART5 && config.«instance» == b.UART4 then
    (0, [Call.rcu_periph_clock_enable rcu_periph_enum.RCU_UART4])
  else
    (-1, [])

/-- Lines 88-122: the switch over the GPIO ports, in source order. -/
def gd32_gpio_clk_enable (b : Board) (gpiox : Nat) : Int × List Call :=
  if gpiox == b.GPIOA then (0, [Call.rcu_periph_clock_enable rcu_periph_enum.RCU_GPIOA])
  else if gpiox == b.GPIOB then (0, [Call.rcu_periph_clock_enable rcu_periph_enum.RCU_GPIOB])
  else if gpiox == b.GPIOC then (0, [Call.rcu_periph_clock_enable rcu_periph_enum.RCU_GPIOC])
  else if gpiox == b.GPIOD then (0, [Call.rcu_periph_clock_enable rcu_periph_enum.RCU_GPIOD])
  else if gpiox == b.GPIOE then (0, [Call.rcu_periph_clock_enable rcu_periph_enum.RCU_GPIOE])
  else if gpiox == b.GPIOF then (0, [Call.rcu_periph_clock_enable rcu_periph_enum.RCU_GPIOF])
  else if gpiox == b.GPIOG then (0, [Call.rcu_periph_clock_enable rcu_periph_enum.RCU_GPIOG])
  else if gpiox == b.GPIOH then (0, [Call.rcu_periph_clock_enable rcu_periph_enum.RCU_GPIOH])
  else (-1, [])

/-- Lines 124-131: returns 0 and the character left in `*c`. -/
def up_char (c : Int) : Int × Int :=
  if c ≥ 97 ∧ c ≤ 122 then (0, c - 32) else (0, c)

/-- Lines 133-140: the values stored in `*port` and `*pin`. -/
def get_pin_by_name (b : Board) (pin_name : List Char) : Option (Nat × Nat) := do
  let digits ← c_suffix pin_name 2
  let pin_num ← atoi digits
  let port_name ← c_index pin_name 1
  let port_name := (up_char port_name).2
  let port :=
    (b.GPIOA + to_uint32 (port_name - 65) * ((b.GPIOB + 4294967296 - b.GPIOA) % 4294967296))
      % 4294967296
  if 0 ≤ pin_num ∧ pin_num < 32 then some (port, (1 <<< pin_num.toNat) % 4294967296)
  else none

/-- Lines 142-175. -/
def gd32_gpio_configure (b : Board) (config : gd32_uart_config) : Option (Int × List Call) := do
  let c4 ← c_index config.name 4
  let uart_num : Int := c4 - 48
  let (tx_port, tx_pin) ← get_pin_by_name b config.tx_pin_name
  let (rx_port, rx_pin) ← get_pin_by_name b config.rx_pin_name
  let clk_tx := Call.enter_gd32_gpio_clk_enable tx_port :: (gd32_gpio_clk_enable b tx_port).2
  let clk_rx :=
    if tx_port != rx_port then
      Call.enter_gd32_gpio_clk_enable rx_port :: (gd32_gpio_clk_enable b rx_port).2
    else []
  let af := if uart_num ≤ 3 then SdkConst.GPIO_AF_7 else SdkConst.GPIO_AF_8
  some (0, clk_tx ++ clk_rx ++
    [ Call.gpio_mode_set tx_port SdkConst.GPIO_MODE_AF SdkConst.GPIO_PUPD_PULLUP tx_pin,
      Call.gpio_output_options_set tx_port SdkConst.GPIO_OTYPE_PP SdkConst.GPIO_OSPEED_60MHZ
        tx_pin,
      Call.gpio_mode_set rx_port SdkConst.GPIO_MODE_AF SdkConst.GPIO_PUPD_PULLUP rx_pin,
      Call.gpio_output_options_set rx_port SdkConst.GPIO_OTYPE_PP SdkConst.GPIO_OSPEED_60MHZ
        rx_pin,
      Call.gpio_af_set tx_port af tx_pin,
      Call.gpio_af_set rx_port af rx_pin ])

/-- Lines 177-200. -/
def gd32_configure (b : Board) (config : gd32_uart_config) : Option (Int × List Call) :=
  let clk := gd32_uart_clk_enable b config
  if clk.1 != 0 then some (-1, clk.2)
  else
    let usart :=
      [ Call.usart_deinit config.«instance»,
        Call.usart_baudrate_set config.«instance» 115200,
        Call.usart_parity_config config.«instance» SdkConst.USART_PM_NONE,
        Call.usart_word_length_set config.«instance» SdkConst.USART_WL_8BIT,
        Call.usart_stop_bit_set config.«instance» SdkConst.USART_STB_1BIT,
        Call.usart_receive_config config.«instance» SdkConst.USART_RECEIVE_ENABLE,
        Call.usart_transmit_config config.«instance» SdkConst.USART_TRANSMIT_ENABLE,
        Call.usart_enable config.«instance» ]
    match gd32_gpio_configure b config with
    | none => none
    | some gpio =>
      if gpio.1 != 0 then some (-1, clk.2 ++ usart ++ gpio.2)
      else some (0, clk.2 ++ usart ++ gpio.2)

/-- The outcome of `rt_hw_usart_init`: its return value, the calls it issued and the
value it left in the global `_uart_config`. -/
structure InitRun where
  ret : Int
  trace : List Call
  _uart_config : gd32_uart_config
  deriving DecidableEq, Repr

/-- Lines 202-206, over the descriptor table `uart_config[]` the build selected. -/
def rt_hw_usart_init (b : Board) (uart_config : List gd32_uart_config) : Option InitRun :=
  match uart_config with
  | [] => none
  | first :: _ =>
    match gd32_configure b first with
    | none => none
    | some r => some { ret := r.1, trace := r.2, _uart_config := first }

/-- The polling loop of line 210 over the successive values the flag reads: the
`usart_flag_get` calls made, and whether the loop was left. -/
def print_char_wait (usart_periph : Nat) : List FlagStatus → List Call × Bool
  | [] => ([], false)
  | FlagStatus.RESET :: rest =>
    let r := print_char_wait usart_periph rest
    (Call.usart_flag_get usart_periph SdkConst.USART_FLAG_TBE :: r.1, r.2)
  | FlagStatus.SET :: _ => ([Call.usart_flag_get usart_periph SdkConst.USART_FLAG_TBE], true)

/-- The outcome of `print_char` on a finite run of flag readings. -/
inductive Run
  | returned (trace : List Call)
  | spinning (trace : List Call)
  | undefined
  deriving DecidableEq, Repr

/-- Lines 208-212, with the global `_uart_config` (NULL before bring-up) and the
successive readings of the transmit-buffer-empty flag. -/
def print_char (_uart_config : Option gd32_uart_config) (c : Int)
    (readings : List FlagStatus) : Run :=
  match _uart_config with
  | none => Run.undefined
  | some config =>
    let w := print_char_wait config.«instance» readings
    if w.2 then
      Run.returned (w.1 ++ [Call.usart_data_transmit config.«instance» (c % 256).toNat])
    else Run.spinning w.1

/-! ## Vocabulary of the specification -/

/-- The UART instances the clock gate of `gd32_uart_clk_enable` knows. -/
inductive UartId
  | USART0 | USART1 | USART2 | UART3 | UART4
  deriving DecidableEq, Repr, Fintype

/-- The GPIO ports the clock gate of `gd32_gpio_clk_enable` knows. -/
inductive GpioId
  | A | B | C | D | E | F | G | H
  deriving DecidableEq, Repr, Fintype

/-- The address constant of a UART instance. -/
def Board.uart_addr (b : Board) : UartId → Nat
  | UartId.USART0 => b.USART0
  | UartId.USART1 => b.USART1
  | UartId.USART2 => b.USART2
  | UartId.UART3 => b.UART3
  | UartId.UART4 => b.UART4

/-- The build flag that compiles the `case` of a UART instance in (lines 56-80). -/
def Board.uart_using (b : Board) : UartId → Bool
  | UartId.USART0 => b.BSP_USING_UART1
  | UartId.USART1 => b.BSP_USING_UART2
  | UartId.USART2 => b.BSP_USING_UART3
  | UartId.UART3 => b.BSP_USING_UART4
  | UartId.UART4 => b.BSP_USING_UART5

/-- The clock `RCU_x` of the UART instance `x`. -/
def UartId.rcu : UartId → rcu_periph_enum
  | UartId.USART0 => rcu_periph_enum.RCU_USART0
  | UartId.USART1 => rcu_periph_enum.RCU_USART1
  | UartId.USART2 => rcu_periph_enum.RCU_USART2
  | UartId.UART3 => rcu_periph_enum.RCU_UART3
  | UartId.UART4 => rcu_periph_enum.RCU_UART4

/-- The descriptor name `uartN` of the build flag `BSP_USING_UARTN` that guards the
instance. -/
def UartId.name : UartId → List Char
  | UartId.USART0 => ['u', 'a', 'r', 't', '1']
  | UartId.USART1 => ['u', 'a', 'r', 't', '2']
  | UartId.USART2 => ['u', 'a', 'r', 't', '3']
  | UartId.UART3 => ['u', 'a', 'r', 't', '4']
  | UartId.UART4 => ['u', 'a', 'r', 't', '5']

/-- The alternate function the hardware wires the instance to: AF7 for USART0-2, AF8
for UART3-4. -/
def UartId.af : UartId → SdkConst
  | UartId.USART0 => SdkConst.GPIO_AF_7
  | UartId.USART1 => SdkConst.GPIO_AF_7
  | UartId.USART2 => SdkConst.GPIO_AF_7
  | UartId.UART3 => SdkConst.GPIO_AF_8
  | UartId.UART4 => SdkConst.GPIO_AF_8

/-- The address constant of a GPIO port. -/
def Board.gpio_addr (b : Board) : GpioId → Nat
  | GpioId.A => b.GPIOA
  | GpioId.B => b.GPIOB
  | GpioId.C => b.GPIOC
  | GpioId.D => b.GPIOD
  | GpioId.E => b.GPIOE
  | GpioId.F => b.GPIOF
  | GpioId.G => b.GPIOG
  | GpioId.H => b.GPIOH

/-- The clock `RCU_GPIOx` of the port `x`. -/
def GpioId.rcu : GpioId → rcu_periph_enum
  | GpioId.A => rcu_periph_enum.RCU_GPIOA
  | GpioId.B => rcu_periph_enum.RCU_GPIOB
  | GpioId.C => rcu_periph_enum.RCU_GPIOC
  | GpioId.D => rcu_periph_enum.RCU_GPIOD
  | GpioId.E => rcu_periph_enum.RCU_GPIOE
  | GpioId.F => rcu_periph_enum.RCU_GPIOF
  | GpioId.G => rcu_periph_enum.RCU_GPIOG
  | GpioId.H => rcu_periph_enum.RCU_GPIOH

/-- The position of the port letter in the alphabet, counted from A = 0. -/
def GpioId.index : GpioId → Nat
  | GpioId.A => 0
  | GpioId.B => 1
  | GpioId.C => 2
  | GpioId.D => 3
  | GpioId.E => 4
  | GpioId.F => 5
  | GpioId.G => 6
  | GpioId.H => 7

/-- The instance is one of the compiled-in UART instances. -/
def uart_supported (b : Board) (inst : Nat) : Prop :=
  ∃ u : UartId, b.uart_using u = true ∧ inst = b.uart_addr u

instance (b : Board) (inst : Nat) : Decidable (uart_supported b inst) := by
  unfold uart_supported; infer_instance

/-- The address is one of `GPIOA..GPIOH`. -/
def gpio_supported (b : Board) (gpiox : Nat) : Prop :=
  ∃ g : GpioId, gpiox = b.gpio_addr g

instance (b : Board) (gpiox : Nat) : Decidable (gpio_supported b gpiox) := by
  unfold gpio_supported; infer_instance

/-- The `case` labels of the `switch` of `gd32_gpio_clk_enable` are pairwise different,
as C requires of a `switch`. -/
def Board.gpio_distinct (b : Board) : Prop :=
  ∀ g h : GpioId, b.gpio_addr g = b.gpio_addr h → g = h

instance (b : Board) : Decidable b.gpio_distinct := by
  unfold Board.gpio_distinct; infer_instance

/-- The compiled-in `case` labels of the `switch` of `gd32_uart_clk_enable` are pairwise
different, as C requires of a `switch`. -/
def Board.uart_distinct (b : Board) : Prop :=
  ∀ u v : UartId, b.uart_using u = true → b.uart_using v = true →
    b.uart_addr u = b.uart_addr v → u = v

instance (b : Board) : Decidable b.uart_distinct := by
  unfold Board.uart_distinct; infer_instance

/-- The stride `GPIOB - GPIOA` of the decoder, in `uint32_t` arithmetic. -/
def Board.stride (b : Board) : Nat := (b.GPIOB + 4294967296 - b.GPIOA) % 4294967296

/-- The ports `GPIOA..GPIOH` lie at the uniform stride `GPIOB - GPIOA` from `GPIOA`. -/
def Board.uniform_stride (b : Board) : Prop :=
  ∀ g : GpioId, b.gpio_addr g = (b.GPIOA + g.index * b.stride) % 4294967296

instance (b : Board) : Decidable b.uniform_stride := by
  unfold Board.uniform_stride; infer_instance

/-- The 32-bit address arithmetic of the decoder maps no letter after the first back onto
the address of the first: no multiple `d * (GPIOB - GPIOA)` with `1 ≤ d ≤ 25` is a
multiple of `2 ^ 32`. -/
def Board.no_wrap (b : Board) : Prop :=
  ∀ d : Nat, 1 ≤ d → d < 26 → (d * b.stride) % 4294967296 ≠ 0

instance (b : Board) : Decidable b.no_wrap := by
  unfold Board.no_wrap; infer_instance

/-- Modelled from the spec: the vendor function `rcu_periph_clock_enable` is not part of
the driver file; its effect on the set of enabled clocks is that the clock-enable bit of
the peripheral is set (set again when it was set). -/
def rcu_periph_clock_enable (clocks : Finset rcu_periph_enum) (periph : rcu_periph_enum) :
    Finset rcu_periph_enum :=
  insert periph clocks

/-- The set of enabled clocks after one call. -/
def clocks_step (clocks : Finset rcu_periph_enum) : Call → Finset rcu_periph_enum
  | Call.rcu_periph_clock_enable periph => rcu_periph_clock_enable clocks periph
  | _ => clocks

/-- The set of enabled clocks after a run of calls. -/
def clocks_after (trace : List Call) (clocks : Finset rcu_periph_enum) :
    Finset rcu_periph_enum :=
  trace.foldl clocks_step clocks

/-- The ports `gd32_gpio_clk_enable` was called on, in order. -/
def gpio_clk_calls (trace : List Call) : List Nat :=
  trace.filterMap fun
    | Call.enter_gd32_gpio_clk_enable gpiox => some gpiox
    | _ => none

/-- The clocks `rcu_periph_clock_enable` was called on, in order. -/
def rcu_calls (trace : List Call) : List rcu_periph_enum :=
  trace.filterMap fun
    | Call.rcu_periph_clock_enable periph => some periph
    | _ => none

/-- The call is a call of the vendor library, not the record of a call of the driver's
own `gd32_gpio_clk_enable`. -/
def Call.is_hardware : Call → Bool
  | Call.enter_gd32_gpio_clk_enable _ => false
  | _ => true

/-- The calls of the vendor library in a run, in order. -/
def hw_calls (trace : List Call) : List Call :=
  trace.filter Call.is_hardware

/-- The calls that program the UART (lines 184-193). -/
def usart_setup (usart_periph : Nat) : List Call :=
  [ Call.usart_deinit usart_periph,
    Call.usart_baudrate_set usart_periph 115200,
    Call.usart_parity_config usart_periph SdkConst.USART_PM_NONE,
    Call.usart_word_length_set usart_periph SdkConst.USART_WL_8BIT,
    Call.usart_stop_bit_set usart_periph SdkConst.USART_STB_1BIT,
    Call.usart_receive_config usart_periph SdkConst.USART_RECEIVE_ENABLE,
    Call.usart_transmit_config usart_periph SdkConst.USART_TRANSMIT_ENABLE,
    Call.usart_enable usart_periph ]

/-- The calls that enable the port clocks (lines 153-158). -/
def port_clocks (b : Board) (tx_port rx_port : Nat) : List Call :=
  (Call.enter_gd32_gpio_clk_enable tx_port :: (gd32_gpio_clk_enable b tx_port).2) ++
    (if tx_port = rx_port then []
     else Call.enter_gd32_gpio_clk_enable rx_port :: (gd32_gpio_clk_enable b rx_port).2)

/-- The calls that configure the two pins, after the port clocks (lines 160-172). -/
def pin_setup (tx_port tx_pin rx_port rx_pin : Nat) (af : SdkConst) : List Call :=
  [ Call.gpio_mode_set tx_port SdkConst.GPIO_MODE_AF SdkConst.GPIO_PUPD_PULLUP tx_pin,
    Call.gpio_output_options_set tx_port SdkConst.GPIO_OTYPE_PP SdkConst.GPIO_OSPEED_60MHZ
      tx_pin,
    Call.gpio_mode_set rx_port SdkConst.GPIO_MODE_AF SdkConst.GPIO_PUPD_PULLUP rx_pin,
    Call.gpio_output_options_set rx_port SdkConst.GPIO_OTYPE_PP SdkConst.GPIO_OSPEED_60MHZ
      rx_pin,
    Call.gpio_af_set tx_port af tx_pin,
    Call.gpio_af_set rx_port af rx_pin ]

/-- The `gpio_af_set` calls of a run, in order. -/
def af_calls (trace : List Call) : List (Nat × SdkConst × Nat) :=
  trace.filterMap fun
    | Call.gpio_af_set gpio_periph alt_func_num pin => some (gpio_periph, alt_func_num, pin)
    | _ => none

/-- The number of flag readings before the first that is set. -/
def resets_before_set (readings : List FlagStatus) : Nat :=
  (readings.takeWhile fun r => r == FlagStatus.RESET).length

/-- An address map with `GPIOA = 0x58020000` and a stride of `0x400`, as on the GD32H7xx,
built with `BSP_USING_UART1` only. -/
def gd32h7 : Board :=
  { GPIOA := 0x58020000, GPIOB := 0x58020400, GPIOC := 0x58020800, GPIOD := 0x58020C00,
    GPIOE := 0x58021000, GPIOF := 0x58021400, GPIOG := 0x58021800, GPIOH := 0x58021C00,
    USART0 := 0x40011000, USART1 := 0x40004400, USART2 := 0x40004800,
    UART3 := 0x40004C00, UART4 := 0x40005000,
    BSP_USING_UART1 := true, BSP_USING_UART2 := false, BSP_USING_UART3 := false,
    BSP_USING_UART4 := false, BSP_USING_UART5 := false }

/-- The descriptor of `uart1` on pins PJ8 and PJ9, of a port outside `GPIOA..GPIOH`. -/
def uart1_pj8_pj9 : gd32_uart_config :=
  { name := ['u', 'a', 'r', 't', '1'], «instance» := 0x40011000, irq_type := 37,
    tx_pin_name := ['P', 'J', '8'], rx_pin_name := ['P', 'J', '9'] }

/-- The descriptor of `uart1` on pins PA9 and PB7, of two different ports. -/
def uart1_pa9_pb7 : gd32_uart_config :=
  { name := ['u', 'a', 'r', 't', '1'], «instance» := 0x40011000, irq_type := 37,
    tx_pin_name := ['P', 'A', '9'], rx_pin_name := ['P', 'B', '7'] }

/-- The descriptor of `uart1` on pins PA9 and PA10. -/
def uart1_pa9_pa10 : gd32_uart_config :=
  { name := ['u', 'a', 'r', 't', '1'], «instance» := 0x40011000, irq_type := 37,
    tx_pin_name := ['P', 'A', '9'], rx_pin_name := ['P', 'A', '1', '0'] }

/-! ## The clock gates -/

theorem gd32_uart_clk_enable_of_unsupported (b : Board) (config : gd32_uart_config)
    (h : ¬ uart_supported b config.«instance») : gd32_uart_clk_enable b config = (-1, []) := by
  have h0 := fun hu => h ⟨UartId.USART0, hu⟩
  have h1 := fun hu => h ⟨UartId.USART1, hu⟩
  have h2 := fun hu => h ⟨UartId.USART2, hu⟩
  have h3 := fun hu => h ⟨UartId.UART3, hu⟩
  have h4 := fun hu => h ⟨UartId.UART4, hu⟩
  simp only [Board.uart_using, Board.uart_addr, not_and] at h0 h1 h2 h3 h4
  simp only [gd32_uart_clk_enable, Bool.and_eq_true, beq_iff_eq]
  rw [if_neg (fun x => h0 x), if_neg (fun x => h1 x), if_neg (fun x => h2 x),
    if_neg (fun x => h3 x), if_neg (fun x => h4 x)]

theorem gd32_gpio_clk_enable_of_unsupported (b : Board) (gpiox : Nat)
    (h : ¬ gpio_supported b gpiox) : gd32_gpio_clk_enable b gpiox = (-1, []) := by
  have hA := fun hu => h ⟨GpioId.A, hu⟩
  have hB := fun hu => h ⟨GpioId.B, hu⟩
  have hC := fun hu => h ⟨GpioId.C, hu⟩
  have hD := fun hu => h ⟨GpioId.D, hu⟩
  have hE := fun hu => h ⟨GpioId.E, hu⟩
  have hF := fun hu => h ⟨GpioId.F, hu⟩
  have hG := fun hu => h ⟨GpioId.G, hu⟩
  have hH := fun hu => h ⟨GpioId.H, hu⟩
  simp only [Board.gpio_addr] at hA hB hC hD hE hF hG hH
  simp only [gd32_gpio_clk_enable, beq_iff_eq]
  rw [if_neg hA, if_neg hB, if_neg hC, if_neg hD, if_neg hE, if_neg hF, if_neg hG, if_neg hH]

/-- A `switch` over the case labels `GPIOA..GPIOH`, pairwise different, takes on the
address of a port the branch of that port. -/
theorem gpio_switch_of_distinct (α : Type) (b : Board) (hinj : b.gpio_distinct)
    (r : GpioId → α) (d : α) (g : GpioId) :
    (if b.gpio_addr g == b.GPIOA then r GpioId.A
      else if b.gpio_addr g == b.GPIOB then r GpioId.B
      else if b.gpio_addr g == b.GPIOC then r GpioId.C
      else if b.gpio_addr g == b.GPIOD then r GpioId.D
      else if b.gpio_addr g == b.GPIOE then r GpioId.E
      else if b.gpio_addr g == b.GPIOF then r GpioId.F
      else if b.gpio_addr g == b.GPIOG then r GpioId.G
      else if b.gpio_addr g == b.GPIOH then r GpioId.H
      else d) = r g := by
  have ne : ∀ g h : GpioId, g ≠ h → b.gpio_addr g ≠ b.gpio_addr h :=
    fun g h hne e => hne (hinj g h e)
  have hBA : b.GPIOB ≠ b.GPIOA := ne GpioId.B GpioId.A (by decide)
  have hCA : b.GPIOC ≠ b.GPIOA := ne GpioId.C GpioId.A (by decide)
  have hCB : b.GPIOC ≠ b.GPIOB := ne GpioId.C GpioId.B (by decide)
  have hDA : b.GPIOD ≠ b.GPIOA := ne GpioId.D GpioId.A (by decide)
  have hDB : b.GPIOD ≠ b.GPIOB := ne GpioId.D GpioId.B (by decide)
  have hDC : b.GPIOD ≠ b.GPIOC := ne GpioId.D GpioId.C (by decide)
  have hEA : b.GPIOE ≠ b.GPIOA := ne GpioId.E GpioId.A (by decide)
  have hEB : b.GPIOE ≠ b.GPIOB := ne GpioId.E GpioId.B (by decide)
  have hEC : b.GPIOE ≠ b.GPIOC := ne GpioId.E GpioId.C (by decide)
  have hED : b.GPIOE ≠ b.GPIOD := ne GpioId.E GpioId.D (by decide)
  have hFA : b.GPIOF ≠ b.GPIOA := ne GpioId.F GpioId.A (by decide)
  have hFB : b.GPIOF ≠ b.GPIOB := ne GpioId.F GpioId.B (by decide)
  have hFC : b.GPIOF ≠ b.GPIOC := ne GpioId.F GpioId.C (by decide)
  have hFD : b.GPIOF ≠ b.GPIOD := ne GpioId.F GpioId.D (by decide)
  have hFE : b.GPIOF ≠ b.GPIOE := ne GpioId.F GpioId.E (by decide)
  have hGA : b.GPIOG ≠ b.GPIOA := ne GpioId.G GpioId.A (by decide)
  have hGB : b.GPIOG ≠ b.GPIOB := ne GpioId.G GpioId.B (by decide)
  have hGC : b.GPIOG ≠ b.GPIOC := ne GpioId.G GpioId.C (by decide)
  have hGD : b.GPIOG ≠ b.GPIOD := ne GpioId.G GpioId.D (by decide)
  have hGE : b.GPIOG ≠ b.GPIOE := ne GpioId.G GpioId.E (by decide)
  have hGF : b.GPIOG ≠ b.GPIOF := ne GpioId.G GpioId.F (by decide)
  have hHA : b.GPIOH ≠ b.GPIOA := ne GpioId.H GpioId.A (by decide)
  have hHB : b.GPIOH ≠ b.GPIOB := ne GpioId.H GpioId.B (by decide)
  have hHC : b.GPIOH ≠ b.GPIOC := ne GpioId.H GpioId.C (by decide)
  have hHD : b.GPIOH ≠ b.GPIOD := ne GpioId.H GpioId.D (by decide)
  have hHE : b.GPIOH ≠ b.GPIOE := ne GpioId.H GpioId.E (by decide)
  have hHF : b.GPIOH ≠ b.GPIOF := ne GpioId.H GpioId.F (by decide)
  have hHG : b.GPIOH ≠ b.GPIOG := ne GpioId.H GpioId.G (by decide)
  cases g <;>
    simp [Board.gpio_addr, hBA, hCA, hCB, hDA, hDB, hDC, hEA, hEB, hEC, hED, hFA, hFB, hFC, hFD, hFE, hGA, hGB, hGC, hGD, hGE, hGF, hHA, hHB, hHC, hHD, hHE, hHF, hHG]

/-- A `switch` over the compiled-in case labels `USART0..UART4`, pairwise different, takes
on the address of a compiled-in instance the branch of that instance. -/
theorem uart_switch_of_distinct (α : Type) (b : Board) (hinj : b.uart_distinct)
    (r : UartId → α) (d : α) (u : UartId) (hu : b.uart_using u = true) (x : Nat)
    (hx : x = b.uart_addr u) :
    (if b.BSP_USING_UART1 && x == b.USART0 then r UartId.USART0
      else if b.BSP_USING_UART2 && x == b.USART1 then r UartId.USART1
      else if b.BSP_USING_UART3 && x == b.USART2 then r UartId.USART2
      else if b.BSP_USING_UART4 && x == b.UART3 then r UartId.UART3
      else if b.BSP_USING_UART5 && x == b.UART4 then r UartId.UART4
      else d) = r u := by
  have ne : ∀ v : UartId, v ≠ u → ¬ (b.uart_using v = true ∧ b.uart_addr u = b.uart_addr v) :=
    fun v hne e => hne (hinj u v hu e.1 e.2).symm
  subst hx
  simp only [Bool.and_eq_true, beq_iff_eq]
  cases u
  · rw [if_pos ⟨hu, rfl⟩]
  · rw [if_neg (show ¬ (b.BSP_USING_UART1 = true ∧ b.uart_addr UartId.USART1 = b.USART0) from
        ne UartId.USART0 (by decide)),
      if_pos ⟨hu, rfl⟩]
  · rw [if_neg (show ¬ (b.BSP_USING_UART1 = true ∧ b.uart_addr UartId.USART2 = b.USART0) from
        ne UartId.USART0 (by decide)),
      if_neg (show ¬ (b.BSP_USING_UART2 = true ∧ b.uart_addr UartId.USART2 = b.USART1) from
        ne UartId.USART1 (by decide)),
      if_pos ⟨hu, rfl⟩]
  · rw [if_neg (show ¬ (b.BSP_USING_UART1 = true ∧ b.uart_addr UartId.UART3 = b.USART0) from
        ne UartId.USART0 (by decide)),
      if_neg (show ¬ (b.BSP_USING_UART2 = true ∧ b.uart_addr UartId.UART3 = b.USART1) from
        ne UartId.USART1 (by decide)),
      if_neg (show ¬ (b.BSP_USING_UART3 = true ∧ b.uart_addr UartId.UART3 = b.USART2) from
        ne UartId.USART2 (by decide)),
      if_pos ⟨hu, rfl⟩]
  · rw [if_neg (show ¬ (b.BSP_USING_UART1 = true ∧ b.uart_addr UartId.UART4 = b.USART0) from
        ne UartId.USART0 (by decide)),
      if_neg (show ¬ (b.BSP_USING_UART2 = true ∧ b.uart_addr UartId.UART4 = b.USART1) from
        ne UartId.USART1 (by decide)),
      if_neg (show ¬ (b.BSP_USING_UART3 = true ∧ b.uart_addr UartId.UART4 = b.USART2) from
        ne UartId.USART2 (by decide)),
      if_neg (show ¬ (b.BSP_USING_UART4 = true ∧ b.uart_addr UartId.UART4 = b.UART3) from
        ne UartId.UART3 (by decide)),
      if_pos ⟨hu, rfl⟩]

theorem gd32_gpio_clk_enable_of_supported (b : Board) (hinj : b.gpio_distinct) (g : GpioId) :
    gd32_gpio_clk_enable b (b.gpio_addr g) = (0, [Call.rcu_periph_clock_enable g.rcu]) :=
  gpio_switch_of_distinct _ b hinj (fun g => (0, [Call.rcu_periph_clock_enable g.rcu]))
    (-1, []) g

theorem gd32_uart_clk_enable_of_supported (b : Board) (hinj : b.uart_distinct) (u : UartId)
    (hu : b.uart_using u = true) (config : gd32_uart_config)
    (hinst : config.«instance» = b.uart_addr u) :
    gd32_uart_clk_enable b config = (0, [Call.rcu_periph_clock_enable u.rcu]) :=
  uart_switch_of_distinct _ b hinj (fun u => (0, [Call.rcu_periph_clock_enable u.rcu]))
    (-1, []) u hu config.«instance» hinst

theorem clocks_after_enable_twice (periph : rcu_periph_enum)
    (clocks : Finset rcu_periph_enum) :
    clocks_after ([Call.rcu_periph_clock_enable periph] ++ [Call.rcu_periph_clock_enable periph])
      clocks = clocks_after [Call.rcu_periph_clock_enable periph] clocks := by
  simp [clocks_after, clocks_step, rcu_periph_clock_enable]

theorem gd32_gpio_clk_enable_trace (b : Board) (gpiox : Nat) :
    (gd32_gpio_clk_enable b gpiox).2 = [] ∨
      ∃ periph, (gd32_gpio_clk_enable b gpiox).2 = [Call.rcu_periph_clock_enable periph] := by
  unfold gd32_gpio_clk_enable
  split_ifs <;> simp

/-! ## The pin name decoder -/

theorem atoi_toDigits (n : Nat) (hn : n ≤ 31) : atoi (Nat.toDigits 10 n) = some (n : Int) := by
  interval_cases n <;> rfl

theorem get_pin_by_name_cons (b : Board) (c0 L : Char) (rest : List Char) :
    get_pin_by_name b (c0 :: L :: rest) =
      (atoi rest).bind fun pin_num =>
        if 0 ≤ pin_num ∧ pin_num < 32 then
          some ((b.GPIOA + to_uint32 ((up_char (L.toNat : Int)).2 - 65) * b.stride) % 4294967296,
            (1 <<< pin_num.toNat) % 4294967296)
        else none := by
  simp [get_pin_by_name, c_suffix, c_index, Board.stride]

theorem port_letter_index (L : Char) (k : Nat) (hk : k < 26)
    (hL : L.toNat = 65 + k ∨ L.toNat = 97 + k) :
    to_uint32 ((up_char (L.toNat : Int)).2 - 65) = k := by
  unfold up_char to_uint32
  rcases hL with h | h <;> rw [h] <;> split_ifs <;> simp <;> omega

theorem get_pin_by_name_letter (b : Board) (c0 L : Char) (k n : Nat) (hk : k < 26)
    (hL : L.toNat = 65 + k ∨ L.toNat = 97 + k) (hn : n ≤ 31) :
    get_pin_by_name b (c0 :: L :: Nat.toDigits 10 n) =
      some ((b.GPIOA + k * b.stride) % 4294967296, 1 <<< n) := by
  rw [get_pin_by_name_cons, atoi_toDigits n hn, port_letter_index L k hk hL]
  have h2 : (1 <<< n) % 4294967296 = 1 <<< n := by
    interval_cases n <;> rfl
  simp [h2]
  omega

theorem get_pin_by_name_port (b : Board) (c0 L : Char) (rest : List Char) (k : Nat)
    (hk : k < 26) (hL : L.toNat = 65 + k ∨ L.toNat = 97 + k) (port pin : Nat)
    (hdec : get_pin_by_name b (c0 :: L :: rest) = some (port, pin)) :
    port = (b.GPIOA + k * b.stride) % 4294967296 := by
  rw [get_pin_by_name_cons, port_letter_index L k hk hL] at hdec
  cases hat : atoi rest with
  | none => rw [hat] at hdec; simp at hdec
  | some pin_num =>
    rw [hat] at hdec
    simp only [Option.some_bind] at hdec
    split_ifs at hdec
    simp only [Option.some.injEq, Prod.mk.injEq] at hdec
    exact hdec.1.symm

theorem GpioId.index_lt (g : GpioId) : g.index < 8 := by
  cases g <;> decide

theorem GpioId.exists_index (k : Nat) (hk : k < 8) : ∃ g : GpioId, g.index = k := by
  interval_cases k
  exacts [⟨GpioId.A, rfl⟩, ⟨GpioId.B, rfl⟩, ⟨GpioId.C, rfl⟩, ⟨GpioId.D, rfl⟩,
    ⟨GpioId.E, rfl⟩, ⟨GpioId.F, rfl⟩, ⟨GpioId.G, rfl⟩, ⟨GpioId.H, rfl⟩]

/-- Under a uniform stride that does not wrap, the address the decoder computes for a
letter after H is none of `GPIOA..GPIOH`. -/
theorem not_gpio_supported_of_ge (b : Board) (hs : b.uniform_stride) (hw : b.no_wrap)
    (k : Nat) (hk : k < 26) (h8 : 8 ≤ k) :
    ¬ gpio_supported b ((b.GPIOA + k * b.stride) % 4294967296) := by
  rintro ⟨g, hg⟩
  rw [hs g] at hg
  have hj := g.index_lt
  have hmod : Nat.ModEq 4294967296 (b.GPIOA + (g.index * b.stride + (k - g.index) * b.stride))
      (b.GPIOA + (g.index * b.stride + 0)) := by
    have e : g.index * b.stride + (k - g.index) * b.stride = k * b.stride := by
      rw [← Nat.add_mul]
      congr 1
      omega
    rw [e, Nat.add_zero]
    exact hg
  have h0 := Nat.ModEq.add_left_cancel' _ (Nat.ModEq.add_left_cancel' _ hmod)
  exact hw (k - g.index) (by omega) (by omega) h0

/-! ## Bring-up -/

theorem gd32_gpio_configure_of_decoded (b : Board) (config : gd32_uart_config) (c4 : Int)
    (tx_port tx_pin rx_port rx_pin : Nat) (hname : c_index config.name 4 = some c4)
    (htx : get_pin_by_name b config.tx_pin_name = some (tx_port, tx_pin))
    (hrx : get_pin_by_name b config.rx_pin_name = some (rx_port, rx_pin)) :
    gd32_gpio_configure b config =
      some (0, port_clocks b tx_port rx_port ++
        pin_setup tx_port tx_pin rx_port rx_pin
          (if c4 - 48 ≤ 3 then SdkConst.GPIO_AF_7 else SdkConst.GPIO_AF_8)) := by
  unfold gd32_gpio_configure
  rw [hname, htx, hrx]
  by_cases h : tx_port = rx_port <;> simp [port_clocks, pin_setup, h]

theorem c_index_of_le (s : List Char) (i : Nat) (h : i ≤ s.length) :
    ∃ c : Int, c_index s i = some c := by
  unfold c_index
  split_ifs with h1 h2
  · exact ⟨_, rfl⟩
  · exact ⟨_, rfl⟩
  · omega

theorem gpio_clk_calls_gd32_gpio_clk_enable (b : Board) (gpiox : Nat) :
    gpio_clk_calls (gd32_gpio_clk_enable b gpiox).2 = [] := by
  rcases gd32_gpio_clk_enable_trace b gpiox with h | ⟨p, h⟩ <;> rw [h] <;> rfl

theorem gpio_clk_calls_append (s t : List Call) :
    gpio_clk_calls (s ++ t) = gpio_clk_calls s ++ gpio_clk_calls t := by
  simp [gpio_clk_calls]

theorem rcu_calls_append (s t : List Call) :
    rcu_calls (s ++ t) = rcu_calls s ++ rcu_calls t := by
  simp [rcu_calls]

theorem gpio_clk_calls_port_clocks (b : Board) (tx_port rx_port : Nat) :
    gpio_clk_calls (port_clocks b tx_port rx_port) =
      if tx_port = rx_port then [tx_port] else [tx_port, rx_port] := by
  have e : ∀ p, gpio_clk_calls (Call.enter_gd32_gpio_clk_enable p ::
      (gd32_gpio_clk_enable b p).2) = [p] := by
    intro p
    have := gpio_clk_calls_gd32_gpio_clk_enable b p
    simp only [gpio_clk_calls] at this ⊢
    simp [List.filterMap_cons, this]
  unfold port_clocks
  rw [gpio_clk_calls_append, e]
  split_ifs
  · rfl
  · rw [e]; rfl

theorem rcu_calls_port_clocks (b : Board) (tx_port rx_port : Nat) :
    rcu_calls (port_clocks b tx_port rx_port) =
      rcu_calls (gd32_gpio_clk_enable b tx_port).2 ++
        (if tx_port = rx_port then [] else rcu_calls (gd32_gpio_clk_enable b rx_port).2) := by
  unfold port_clocks
  rw [rcu_calls_append]
  split_ifs <;> simp [rcu_calls, List.filterMap_cons]

theorem gd32_configure_of_supported (b : Board) (hinj : b.uart_distinct) (u : UartId)
    (hu : b.uart_using u = true) (config : gd32_uart_config)
    (hinst : config.«instance» = b.uart_addr u) (c4 : Int)
    (tx_port tx_pin rx_port rx_pin : Nat) (hname : c_index config.name 4 = some c4)
    (htx : get_pin_by_name b config.tx_pin_name = some (tx_port, tx_pin))
    (hrx : get_pin_by_name b config.rx_pin_name = some (rx_port, rx_pin)) :
    gd32_configure b config =
      some (0, Call.rcu_periph_clock_enable u.rcu :: usart_setup config.«instance» ++
        (port_clocks b tx_port rx_port ++ pin_setup tx_port tx_pin rx_port rx_pin
          (if c4 - 48 ≤ 3 then SdkConst.GPIO_AF_7 else SdkConst.GPIO_AF_8))) := by
  unfold gd32_configure
  rw [gd32_uart_clk_enable_of_supported b hinj u hu config hinst,
    gd32_gpio_configure_of_decoded b config c4 _ _ _ _ hname htx hrx]
  simp [usart_setup]

theorem gd32_configure_of_unsupported (b : Board) (config : gd32_uart_config)
    (h : ¬ uart_supported b config.«instance») : gd32_configure b config = some (-1, []) := by
  simp [gd32_configure, gd32_uart_clk_enable_of_unsupported b config h]

/-! ## The transmitter -/

theorem print_char_wait_of_set (usart_periph : Nat) (readings : List FlagStatus)
    (h : FlagStatus.SET ∈ readings) :
    print_char_wait usart_periph readings =
      (List.replicate (resets_before_set readings + 1)
        (Call.usart_flag_get usart_periph SdkConst.USART_FLAG_TBE), true) := by
  induction readings with
  | nil => simp at h
  | cons r rest ih =>
    cases r with
    | RESET =>
      have h2 : FlagStatus.SET ∈ rest := by simpa using h
      simp only [print_char_wait, ih h2]
      simp [resets_before_set, List.takeWhile_cons, List.replicate_succ]
    | SET =>
      simp [print_char_wait, resets_before_set, List.takeWhile_cons]

theorem print_char_wait_take (usart_periph : Nat) (readings : List FlagStatus) (j : Nat)
    (hj : j ≤ resets_before_set readings) :
    print_char_wait usart_periph (readings.take j) =
      (List.replicate j (Call.usart_flag_get usart_periph SdkConst.USART_FLAG_TBE), false) := by
  induction readings generalizing j with
  | nil => simp [print_char_wait, resets_before_set] at hj ⊢; subst hj; rfl
  | cons r rest ih =>
    cases j with
    | zero => simp [print_char_wait]
    | succ j =>
      cases r with
      | RESET =>
        have hj2 : j ≤ resets_before_set rest := by
          simp [resets_before_set, List.takeWhile_cons] at hj
          exact hj
        simp only [List.take_succ_cons, print_char_wait, ih j hj2]
        simp [List.replicate_succ]
      | SET =>
        simp [resets_before_set, List.takeWhile_cons] at hj

/-! ## The properties of the specification -/

/-- C1: a pin name with an arbitrary first character, a port letter `L` among `A..H` or
`a..h` at alphabet position `k`, and the decimal digits of `n ≤ 15` decodes to the port
`GPIOA + k * (GPIOB - GPIOA)` (in `uint32_t` arithmetic, and as a plain sum when the
ports ascend and the sum fits 32 bits) and the mask `1 << n`, whatever the case of the
letter; `PA9` gives `(GPIOA, 1 << 9)` and `pb0` gives `(GPIOB, 1 << 0)`. -/
theorem get_pin_by_name_port_and_mask (b : Board) (hA : b.GPIOA < 4294967296)
    (hB : b.GPIOB < 4294967296) (c0 L : Char) (k n : Nat) (hk : k < 8)
    (hL : L.toNat = 'A'.toNat + k ∨ L.toNat = 'a'.toNat + k) (hn : n ≤ 15) :
    get_pin_by_name b (c0 :: L :: Nat.toDigits 10 n) =
      some ((b.GPIOA + k * ((b.GPIOB + 4294967296 - b.GPIOA) % 4294967296)) % 4294967296,
        1 <<< n) ∧
    (b.GPIOA ≤ b.GPIOB → b.GPIOA + k * (b.GPIOB - b.GPIOA) < 4294967296 →
      get_pin_by_name b (c0 :: L :: Nat.toDigits 10 n) =
        some (b.GPIOA + k * (b.GPIOB - b.GPIOA), 1 <<< n)) ∧
    get_pin_by_name b ['P', 'A', '9'] = some (b.GPIOA, 1 <<< 9) ∧
    get_pin_by_name b ['p', 'b', '0'] = some (b.GPIOB, 1 <<< 0) := by
  have hgen := get_pin_by_name_letter b c0 L k n (by omega) hL (by omega)
  have h9 := get_pin_by_name_letter b 'P' 'A' 0 9 (by omega) (Or.inl rfl) (by omega)
  have h0 := get_pin_by_name_letter b 'p' 'b' 1 0 (by omega) (Or.inr rfl) (by omega)
  have e9 : Nat.toDigits 10 9 = ['9'] := rfl
  have e0 : Nat.toDigits 10 0 = ['0'] := rfl
  rw [e9] at h9
  rw [e0] at h0
  unfold Board.stride at hgen h9 h0
  refine ⟨hgen, ?_, ?_, ?_⟩
  · intro hle hlt
    rw [hgen]
    have hs : (b.GPIOB + 4294967296 - b.GPIOA) % 4294967296 = b.GPIOB - b.GPIOA := by omega
    rw [hs, Nat.mod_eq_of_lt hlt]
  · rw [h9]
    simp only [Nat.zero_mul, Nat.add_zero]
    rw [Nat.mod_eq_of_lt hA]
  · rw [h0]
    have : (b.GPIOA + 1 * ((b.GPIOB + 4294967296 - b.GPIOA) % 4294967296)) % 4294967296
        = b.GPIOB := by omega
    rw [this]

/-- The name `Pc13` on the GD32H7 address map: port `GPIOC`, mask `1 << 13`. -/
theorem get_pin_by_name_port_and_mask_witness :
    get_pin_by_name gd32h7 ('P' :: 'c' :: Nat.toDigits 10 13) =
      some ((gd32h7.GPIOA + 2 * ((gd32h7.GPIOB + 4294967296 - gd32h7.GPIOA) % 4294967296))
        % 4294967296, 1 <<< 13) ∧
    (gd32h7.GPIOA ≤ gd32h7.GPIOB →
      gd32h7.GPIOA + 2 * (gd32h7.GPIOB - gd32h7.GPIOA) < 4294967296 →
      get_pin_by_name gd32h7 ('P' :: 'c' :: Nat.toDigits 10 13) =
        some (gd32h7.GPIOA + 2 * (gd32h7.GPIOB - gd32h7.GPIOA), 1 <<< 13)) ∧
    get_pin_by_name gd32h7 ['P', 'A', '9'] = some (gd32h7.GPIOA, 1 <<< 9) ∧
    get_pin_by_name gd32h7 ['p', 'b', '0'] = some (gd32h7.GPIOB, 1 <<< 0) :=
  get_pin_by_name_port_and_mask gd32h7 (by decide) (by decide) 'P' 'c' 2 13 (by decide)
    (by decide) (by decide)

/-- C2: the descriptor of `uart1` on pins PJ8 and PJ9 has a supported instance and pin
names that decode to the port address `0x58022400`, on which `gd32_gpio_clk_enable`
returns -1; `gd32_gpio_configure` drops that status, so `gd32_gpio_configure`,
`gd32_configure` and `rt_hw_usart_init` all return 0 where the specification has them
return a failure. -/
theorem gd32_configure_ignores_gpio_clk_failure :
    uart_supported gd32h7 uart1_pj8_pj9.«instance» ∧
    get_pin_by_name gd32h7 uart1_pj8_pj9.tx_pin_name = some (0x58022400, 1 <<< 8) ∧
    get_pin_by_name gd32h7 uart1_pj8_pj9.rx_pin_name = some (0x58022400, 1 <<< 9) ∧
    ¬ gpio_supported gd32h7 0x58022400 ∧
    gd32_gpio_clk_enable gd32h7 0x58022400 = (-1, []) ∧
    (gd32_gpio_configure gd32h7 uart1_pj8_pj9).map Prod.fst = some 0 ∧
    (gd32_configure gd32h7 uart1_pj8_pj9).map Prod.fst = some 0 ∧
    (rt_hw_usart_init gd32h7 [uart1_pj8_pj9]).map InitRun.ret = some 0 := by
  decide

/-- C3: on a UART instance that is not one of the compiled-in instances, and on an address
that is not one of `GPIOA..GPIOH`, clock-enable returns -1 and issues no call, so no
`rcu_periph_clock_enable`; whatever a call does to the hardware state, and so to the
enabled clocks, the state after the run is the state before it. -/
theorem clk_enable_unsupported (b : Board) (config : gd32_uart_config) (gpiox : Nat)
    (hu : ¬ uart_supported b config.«instance») (hg : ¬ gpio_supported b gpiox) :
    gd32_uart_clk_enable b config = (-1, []) ∧
    gd32_gpio_clk_enable b gpiox = (-1, []) ∧
    (∀ clocks : Finset rcu_periph_enum,
      clocks_after (gd32_uart_clk_enable b config).2 clocks = clocks ∧
      clocks_after (gd32_gpio_clk_enable b gpiox).2 clocks = clocks) ∧
    ∀ (σ : Type) (step : σ → Call → σ) (s : σ),
      List.foldl step s (gd32_uart_clk_enable b config).2 = s ∧
      List.foldl step s (gd32_gpio_clk_enable b gpiox).2 = s := by
  rw [gd32_uart_clk_enable_of_unsupported b config hu,
    gd32_gpio_clk_enable_of_unsupported b gpiox hg]
  exact ⟨rfl, rfl, fun _ => ⟨rfl, rfl⟩, fun _ _ _ => ⟨rfl, rfl⟩⟩

/-- The instance USART1, not compiled in on a build with `BSP_USING_UART1` only, and
the address of port J. -/
theorem clk_enable_unsupported_witness :
    gd32_uart_clk_enable gd32h7 { uart1_pa9_pa10 with «instance» := 0x40004400 } = (-1, []) ∧
    gd32_gpio_clk_enable gd32h7 0x58022400 = (-1, []) :=
  have w := clk_enable_unsupported gd32h7 { uart1_pa9_pa10 with «instance» := 0x40004400 }
    0x58022400 (by decide) (by decide)
  ⟨w.1, w.2.1⟩

/-- C4: when the instance of the first table entry is outside the supported UART clock
set, `rt_hw_usart_init` returns -1 and its run holds no call at all: no `usart_*` call,
no GPIO clock enable, no `gpio_mode_set`, `gpio_output_options_set` or `gpio_af_set`. -/
theorem rt_hw_usart_init_unsupported (b : Board) (first : gd32_uart_config)
    (rest : List gd32_uart_config) (h : ¬ uart_supported b first.«instance») :
    rt_hw_usart_init b (first :: rest) =
      some { ret := -1, trace := [], _uart_config := first } := by
  simp [rt_hw_usart_init, gd32_configure_of_unsupported b first h]

/-- A table whose first entry names USART1 on a build with `BSP_USING_UART1` only. -/
theorem rt_hw_usart_init_unsupported_witness :
    rt_hw_usart_init gd32h7
        [{ uart1_pa9_pa10 with «instance» := 0x40004400 }, uart1_pa9_pa10] =
      some { ret := -1, trace := [],
             _uart_config := { uart1_pa9_pa10 with «instance» := 0x40004400 } } :=
  rt_hw_usart_init_unsupported gd32h7 { uart1_pa9_pa10 with «instance» := 0x40004400 }
    [uart1_pa9_pa10] (by decide)

/-- C5, as stated, fails: the table whose only entry is `uart1` on pins PJ8 and PJ9 has
a first entry with a supported instance, and `rt_hw_usart_init` returns 0 on it, but its
run holds no GPIO port clock enable: `gd32_gpio_clk_enable` is called once, on the address
`0x58022400` outside `GPIOA..GPIOH`, issues no call, and the only
`rcu_periph_clock_enable` of the run is the one of the UART. -/
theorem rt_hw_usart_init_no_port_clock :
    uart_supported gd32h7 uart1_pj8_pj9.«instance» ∧
    rt_hw_usart_init gd32h7 [uart1_pj8_pj9] = some
      { ret := 0
        _uart_config := uart1_pj8_pj9
        trace :=
          [ Call.rcu_periph_clock_enable rcu_periph_enum.RCU_USART0,
            Call.usart_deinit 0x40011000,
            Call.usart_baudrate_set 0x40011000 115200,
            Call.usart_parity_config 0x40011000 SdkConst.USART_PM_NONE,
            Call.usart_word_length_set 0x40011000 SdkConst.USART_WL_8BIT,
            Call.usart_stop_bit_set 0x40011000 SdkConst.USART_STB_1BIT,
            Call.usart_receive_config 0x40011000 SdkConst.USART_RECEIVE_ENABLE,
            Call.usart_transmit_config 0x40011000 SdkConst.USART_TRANSMIT_ENABLE,
            Call.usart_enable 0x40011000,
            Call.enter_gd32_gpio_clk_enable 0x58022400,
            Call.gpio_mode_set 0x58022400 SdkConst.GPIO_MODE_AF SdkConst.GPIO_PUPD_PULLUP 256,
            Call.gpio_output_options_set 0x58022400 SdkConst.GPIO_OTYPE_PP
              SdkConst.GPIO_OSPEED_60MHZ 256,
            Call.gpio_mode_set 0x58022400 SdkConst.GPIO_MODE_AF SdkConst.GPIO_PUPD_PULLUP 512,
            Call.gpio_output_options_set 0x58022400 SdkConst.GPIO_OTYPE_PP
              SdkConst.GPIO_OSPEED_60MHZ 512,
            Call.gpio_af_set 0x58022400 SdkConst.GPIO_AF_7 256,
            Call.gpio_af_set 0x58022400 SdkConst.GPIO_AF_7 512 ] } ∧
    (rt_hw_usart_init gd32h7 [uart1_pj8_pj9]).map (fun run => rcu_calls run.trace) =
      some [rcu_periph_enum.RCU_USART0] := by
  decide

/-- C5, amended: on a non-empty table whose first entry has a supported instance, a name
the code can read and pin names that decode to ports among `GPIOA..GPIOH`,
`rt_hw_usart_init` returns 0, leaves `_uart_config` on the first entry, and issues
exactly, in this order and on the first entry's instance and pins whatever the later
entries are: the UART clock enable, `usart_deinit`, baud rate 115200, parity none, word
length 8 bits, 1 stop bit, receiver enable, transmitter enable, `usart_enable`, the clock
enable of the transmit port and, when the receive port is another one, the clock enable
of the receive port, alternate-function mode with pull-up and push-pull 60MHz options for
the transmit pin, the same for the receive pin, then `gpio_af_set` for the transmit pin
and for the receive pin with one alternate function. -/
theorem rt_hw_usart_init_trace (b : Board) (hinj : b.uart_distinct) (hg : b.gpio_distinct)
    (u : UartId) (hu : b.uart_using u = true) (first : gd32_uart_config)
    (rest : List gd32_uart_config) (hinst : first.«instance» = b.uart_addr u)
    (hname : 4 ≤ first.name.length) (gt gr : GpioId) (tx_pin rx_pin : Nat)
    (htx : get_pin_by_name b first.tx_pin_name = some (b.gpio_addr gt, tx_pin))
    (hrx : get_pin_by_name b first.rx_pin_name = some (b.gpio_addr gr, rx_pin)) :
    ∃ af : SdkConst, (af = SdkConst.GPIO_AF_7 ∨ af = SdkConst.GPIO_AF_8) ∧
      ∃ run : InitRun, rt_hw_usart_init b (first :: rest) = some run ∧
        run.ret = 0 ∧ run._uart_config = first ∧
        run.trace =
          [ Call.rcu_periph_clock_enable u.rcu,
            Call.usart_deinit first.«instance»,
            Call.usart_baudrate_set first.«instance» 115200,
            Call.usart_parity_config first.«instance» SdkConst.USART_PM_NONE,
            Call.usart_word_length_set first.«instance» SdkConst.USART_WL_8BIT,
            Call.usart_stop_bit_set first.«instance» SdkConst.USART_STB_1BIT,
            Call.usart_receive_config first.«instance» SdkConst.USART_RECEIVE_ENABLE,
            Call.usart_transmit_config first.«instance» SdkConst.USART_TRANSMIT_ENABLE,
            Call.usart_enable first.«instance»,
            Call.enter_gd32_gpio_clk_enable (b.gpio_addr gt),
            Call.rcu_periph_clock_enable gt.rcu ] ++
          (if gt = gr then []
           else [ Call.enter_gd32_gpio_clk_enable (b.gpio_addr gr),
                  Call.rcu_periph_clock_enable gr.rcu ]) ++
          [ Call.gpio_mode_set (b.gpio_addr gt) SdkConst.GPIO_MODE_AF
              SdkConst.GPIO_PUPD_PULLUP tx_pin,
            Call.gpio_output_options_set (b.gpio_addr gt) SdkConst.GPIO_OTYPE_PP
              SdkConst.GPIO_OSPEED_60MHZ tx_pin,
            Call.gpio_mode_set (b.gpio_addr gr) SdkConst.GPIO_MODE_AF
              SdkConst.GPIO_PUPD_PULLUP rx_pin,
            Call.gpio_output_options_set (b.gpio_addr gr) SdkConst.GPIO_OTYPE_PP
              SdkConst.GPIO_OSPEED_60MHZ rx_pin,
            Call.gpio_af_set (b.gpio_addr gt) af tx_pin,
            Call.gpio_af_set (b.gpio_addr gr) af rx_pin ] ∧
        hw_calls run.trace =
          [ Call.rcu_periph_clock_enable u.rcu,
            Call.usart_deinit first.«instance»,
            Call.usart_baudrate_set first.«instance» 115200,
            Call.usart_parity_config first.«instance» SdkConst.USART_PM_NONE,
            Call.usart_word_length_set first.«instance» SdkConst.USART_WL_8BIT,
            Call.usart_stop_bit_set first.«instance» SdkConst.USART_STB_1BIT,
            Call.usart_receive_config first.«instance» SdkConst.USART_RECEIVE_ENABLE,
            Call.usart_transmit_config first.«instance» SdkConst.USART_TRANSMIT_ENABLE,
            Call.usart_enable first.«instance»,
            Call.rcu_periph_clock_enable gt.rcu ] ++
          (if gt = gr then [] else [Call.rcu_periph_clock_enable gr.rcu]) ++
          [ Call.gpio_mode_set (b.gpio_addr gt) SdkConst.GPIO_MODE_AF
              SdkConst.GPIO_PUPD_PULLUP tx_pin,
            Call.gpio_output_options_set (b.gpio_addr gt) SdkConst.GPIO_OTYPE_PP
              SdkConst.GPIO_OSPEED_60MHZ tx_pin,
            Call.gpio_mode_set (b.gpio_addr gr) SdkConst.GPIO_MODE_AF
              SdkConst.GPIO_PUPD_PULLUP rx_pin,
            Call.gpio_output_options_set (b.gpio_addr gr) SdkConst.GPIO_OTYPE_PP
              SdkConst.GPIO_OSPEED_60MHZ rx_pin,
            Call.gpio_af_set (b.gpio_addr gt) af tx_pin,
            Call.gpio_af_set (b.gpio_addr gr) af rx_pin ] := by
  obtain ⟨c4, hc4⟩ := c_index_of_le first.name 4 hname
  have huart : gd32_uart_clk_enable b first = (0, [Call.rcu_periph_clock_enable u.rcu]) :=
    uart_switch_of_distinct _ b hinj (fun u => (0, [Call.rcu_periph_clock_enable u.rcu]))
      (-1, []) u hu first.«instance» hinst
  have hgpio : ∀ g : GpioId,
      gd32_gpio_clk_enable b (b.gpio_addr g) = (0, [Call.rcu_periph_clock_enable g.rcu]) :=
    fun g => gpio_switch_of_distinct _ b hg
      (fun g => (0, [Call.rcu_periph_clock_enable g.rcu])) (-1, []) g
  have hcfg := gd32_gpio_configure_of_decoded b first c4 _ _ _ _ hc4 htx hrx
  have hport : (b.gpio_addr gt = b.gpio_addr gr) ↔ gt = gr :=
    ⟨fun e => hg gt gr e, fun e => by rw [e]⟩
  refine ⟨if c4 - 48 ≤ 3 then SdkConst.GPIO_AF_7 else SdkConst.GPIO_AF_8, ?_, ?_⟩
  · split_ifs
    · exact Or.inl rfl
    · exact Or.inr rfl
  · simp only [rt_hw_usart_init, gd32_configure, huart, hcfg, port_clocks, hgpio, hport]
    refine ⟨_, rfl, rfl, rfl, ?_, ?_⟩
    · by_cases h : gt = gr <;> simp [pin_setup, h]
    · by_cases h : gt = gr <;> simp [pin_setup, h, hw_calls, Call.is_hardware]

/-- The table `uart1` on PA9/PB7 followed by a second entry, on the GD32H7 address map:
the clocks of USART0, port A and port B are enabled, in this order. -/
theorem rt_hw_usart_init_trace_witness :
    (rt_hw_usart_init gd32h7 [uart1_pa9_pb7, uart1_pj8_pj9]).map
        (fun run => rcu_calls run.trace) =
      some [rcu_periph_enum.RCU_USART0, rcu_periph_enum.RCU_GPIOA,
        rcu_periph_enum.RCU_GPIOB] ∧
    ∃ af : SdkConst, (af = SdkConst.GPIO_AF_7 ∨ af = SdkConst.GPIO_AF_8) ∧
      ∃ run : InitRun, rt_hw_usart_init gd32h7 [uart1_pa9_pb7, uart1_pj8_pj9] = some run ∧
        run.ret = 0 ∧ run._uart_config = uart1_pa9_pb7 ∧
        run.trace =
          [ Call.rcu_periph_clock_enable rcu_periph_enum.RCU_USART0,
            Call.usart_deinit 0x40011000,
            Call.usart_baudrate_set 0x40011000 115200,
            Call.usart_parity_config 0x40011000 SdkConst.USART_PM_NONE,
            Call.usart_word_length_set 0x40011000 SdkConst.USART_WL_8BIT,
            Call.usart_stop_bit_set 0x40011000 SdkConst.USART_STB_1BIT,
            Call.usart_receive_config 0x40011000 SdkConst.USART_RECEIVE_ENABLE,
            Call.usart_transmit_config 0x40011000 SdkConst.USART_TRANSMIT_ENABLE,
            Call.usart_enable 0x40011000,
            Call.enter_gd32_gpio_clk_enable 0x58020000,
            Call.rcu_periph_clock_enable rcu_periph_enum.RCU_GPIOA ] ++
          (if GpioId.A = GpioId.B then []
           else [ Call.enter_gd32_gpio_clk_enable 0x58020400,
                  Call.rcu_periph_clock_enable rcu_periph_enum.RCU_GPIOB ]) ++
          [ Call.gpio_mode_set 0x58020000 SdkConst.GPIO_MODE_AF SdkConst.GPIO_PUPD_PULLUP 512,
            Call.gpio_output_options_set 0x58020000 SdkConst.GPIO_OTYPE_PP
              SdkConst.GPIO_OSPEED_60MHZ 512,
            Call.gpio_mode_set 0x58020400 SdkConst.GPIO_MODE_AF SdkConst.GPIO_PUPD_PULLUP 128,
            Call.gpio_output_options_set 0x58020400 SdkConst.GPIO_OTYPE_PP
              SdkConst.GPIO_OSPEED_60MHZ 128,
            Call.gpio_af_set 0x58020000 af 512,
            Call.gpio_af_set 0x58020400 af 128 ] ∧
        hw_calls run.trace =
          [ Call.rcu_periph_clock_enable rcu_periph_enum.RCU_USART0,
            Call.usart_deinit 0x40011000,
            Call.usart_baudrate_set 0x40011000 115200,
            Call.usart_parity_config 0x40011000 SdkConst.USART_PM_NONE,
            Call.usart_word_length_set 0x40011000 SdkConst.USART_WL_8BIT,
            Call.usart_stop_bit_set 0x40011000 SdkConst.USART_STB_1BIT,
            Call.usart_receive_config 0x40011000 SdkConst.USART_RECEIVE_ENABLE,
            Call.usart_transmit_config 0x40011000 SdkConst.USART_TRANSMIT_ENABLE,
            Call.usart_enable 0x40011000,
            Call.rcu_periph_clock_enable rcu_periph_enum.RCU_GPIOA ] ++
          (if GpioId.A = GpioId.B then []
           else [Call.rcu_periph_clock_enable rcu_periph_enum.RCU_GPIOB]) ++
          [ Call.gpio_mode_set 0x58020000 SdkConst.GPIO_MODE_AF SdkConst.GPIO_PUPD_PULLUP 512,
            Call.gpio_output_options_set 0x58020000 SdkConst.GPIO_OTYPE_PP
              SdkConst.GPIO_OSPEED_60MHZ 512,
            Call.gpio_mode_set 0x58020400 SdkConst.GPIO_MODE_AF SdkConst.GPIO_PUPD_PULLUP 128,
            Call.gpio_output_options_set 0x58020400 SdkConst.GPIO_OTYPE_PP
              SdkConst.GPIO_OSPEED_60MHZ 128,
            Call.gpio_af_set 0x58020000 af 512,
            Call.gpio_af_set 0x58020400 af 128 ] :=
  ⟨by decide,
    rt_hw_usart_init_trace gd32h7 (by decide) (by decide) UartId.USART0 (by decide)
      uart1_pa9_pb7 [uart1_pj8_pj9] (by decide) (by decide) GpioId.A GpioId.B 512 128
      (by decide) (by decide)⟩

/-- C6: when the two pin names decode, `gd32_gpio_configure` calls `gd32_gpio_clk_enable`
exactly once, on the common port, when they decode to the same port address, and exactly
twice, on the transmit port and then on the receive port, when they decode to different
addresses; with a common port the clock of that port is enabled by the one call only. -/
theorem gd32_gpio_configure_clk_calls (b : Board) (config : gd32_uart_config)
    (tx_port tx_pin rx_port rx_pin : Nat) (hname : 4 ≤ config.name.length)
    (htx : get_pin_by_name b config.tx_pin_name = some (tx_port, tx_pin))
    (hrx : get_pin_by_name b config.rx_pin_name = some (rx_port, rx_pin)) :
    ∃ trace, gd32_gpio_configure b config = some (0, trace) ∧
      (tx_port = rx_port → gpio_clk_calls trace = [tx_port]) ∧
      (tx_port ≠ rx_port → gpio_clk_calls trace = [tx_port, rx_port]) ∧
      (tx_port = rx_port →
        rcu_calls trace = rcu_calls (gd32_gpio_clk_enable b tx_port).2 ∧
        (rcu_calls trace).length ≤ 1) := by
  obtain ⟨c4, hc4⟩ := c_index_of_le config.name 4 hname
  refine ⟨_, gd32_gpio_configure_of_decoded b config c4 _ _ _ _ hc4 htx hrx, ?_, ?_, ?_⟩
  · intro h
    rw [gpio_clk_calls_append, gpio_clk_calls_port_clocks, if_pos h]
    rfl
  · intro h
    rw [gpio_clk_calls_append, gpio_clk_calls_port_clocks, if_neg h]
    rfl
  · intro h
    have e : rcu_calls (port_clocks b tx_port rx_port ++ pin_setup tx_port tx_pin rx_port rx_pin
        (if c4 - 48 ≤ 3 then SdkConst.GPIO_AF_7 else SdkConst.GPIO_AF_8)) =
        rcu_calls (gd32_gpio_clk_enable b tx_port).2 := by
      rw [rcu_calls_append, rcu_calls_port_clocks, if_pos h]
      simp [rcu_calls, pin_setup]
    rw [e]
    refine ⟨rfl, ?_⟩
    rcases gd32_gpio_clk_enable_trace b tx_port with h | ⟨p, h⟩ <;> rw [h] <;> simp [rcu_calls]

/-- The descriptor of `uart1` on PA9 and PA10, two pins of port A. -/
theorem gd32_gpio_configure_clk_calls_witness :
    ∃ trace, gd32_gpio_configure gd32h7 uart1_pa9_pa10 = some (0, trace) ∧
      (0x58020000 = 0x58020000 → gpio_clk_calls trace = [0x58020000]) ∧
      (0x58020000 ≠ 0x58020000 → gpio_clk_calls trace = [0x58020000, 0x58020000]) ∧
      (0x58020000 = 0x58020000 →
        rcu_calls trace = rcu_calls (gd32_gpio_clk_enable gd32h7 0x58020000).2 ∧
        (rcu_calls trace).length ≤ 1) :=
  gd32_gpio_configure_clk_calls gd32h7 uart1_pa9_pa10 0x58020000 512 0x58020000 1024
    (by decide) (by decide) (by decide)

/-- C7: with an active descriptor, for every character `c` and every run of flag readings
that holds a set one, `print_char` returns after polling the flag up to and including the
first set reading and then issuing exactly one `usart_data_transmit`, on the instance of
the descriptor, with `c` as an unsigned 8-bit value; on every shorter run of readings,
all RESET, it is still polling and has written nothing. -/
theorem print_char_transmits_after_flag (config : gd32_uart_config) (c : Int)
    (readings : List FlagStatus) (h : FlagStatus.SET ∈ readings) :
    print_char (some config) c readings =
      Run.returned (List.replicate (resets_before_set readings + 1)
          (Call.usart_flag_get config.«instance» SdkConst.USART_FLAG_TBE) ++
        [Call.usart_data_transmit config.«instance» (c % 256).toNat]) ∧
    (c % 256).toNat < 256 ∧
    (0 ≤ c → c < 256 → ((c % 256).toNat : Int) = c) ∧
    ∀ j, j ≤ resets_before_set readings →
      print_char (some config) c (readings.take j) =
        Run.spinning (List.replicate j
          (Call.usart_flag_get config.«instance» SdkConst.USART_FLAG_TBE)) := by
  refine ⟨?_, by omega, fun h0 h1 => by omega, fun j hj => ?_⟩
  · simp [print_char, print_char_wait_of_set config.«instance» readings h]
  · simp [print_char, print_char_wait_take config.«instance» readings j hj]

/-- The character `A` sent while the flag reads RESET, RESET, SET. -/
theorem print_char_transmits_after_flag_witness :
    print_char (some uart1_pa9_pa10) 65
        [FlagStatus.RESET, FlagStatus.RESET, FlagStatus.SET, FlagStatus.RESET] =
      Run.returned
        [ Call.usart_flag_get 0x40011000 SdkConst.USART_FLAG_TBE,
          Call.usart_flag_get 0x40011000 SdkConst.USART_FLAG_TBE,
          Call.usart_flag_get 0x40011000 SdkConst.USART_FLAG_TBE,
          Call.usart_data_transmit 0x40011000 65 ] :=
  (print_char_transmits_after_flag uart1_pa9_pa10 65
    [FlagStatus.RESET, FlagStatus.RESET, FlagStatus.SET, FlagStatus.RESET] (by decide)).1

/-- C8: on a compiled-in UART instance `x`, and on each of `GPIOA..GPIOH`, clock-enable
returns 0 and issues exactly `rcu_periph_clock_enable(RCU_x)`, which adds that clock to
the set of enabled clocks; two calls in a row return 0 both times and leave the set of
enabled clocks equal to the set after one call. -/
theorem clk_enable_supported_idempotent (b : Board) (hg : b.gpio_distinct)
    (hinj : b.uart_distinct) (u : UartId) (hu : b.uart_using u = true)
    (config : gd32_uart_config) (hinst : config.«instance» = b.uart_addr u) (g : GpioId)
    (clocks : Finset rcu_periph_enum) :
    gd32_uart_clk_enable b config = (0, [Call.rcu_periph_clock_enable u.rcu]) ∧
    gd32_gpio_clk_enable b (b.gpio_addr g) = (0, [Call.rcu_periph_clock_enable g.rcu]) ∧
    clocks_after (gd32_uart_clk_enable b config).2 clocks = insert u.rcu clocks ∧
    clocks_after (gd32_gpio_clk_enable b (b.gpio_addr g)).2 clocks = insert g.rcu clocks ∧
    clocks_after ((gd32_uart_clk_enable b config).2 ++ (gd32_uart_clk_enable b config).2)
        clocks = clocks_after (gd32_uart_clk_enable b config).2 clocks ∧
    clocks_after ((gd32_gpio_clk_enable b (b.gpio_addr g)).2 ++
        (gd32_gpio_clk_enable b (b.gpio_addr g)).2) clocks
      = clocks_after (gd32_gpio_clk_enable b (b.gpio_addr g)).2 clocks := by
  rw [gd32_uart_clk_enable_of_supported b hinj u hu config hinst,
    gd32_gpio_clk_enable_of_supported b hg g]
  exact ⟨rfl, rfl, rfl, rfl, clocks_after_enable_twice _ _, clocks_after_enable_twice _ _⟩

/-- The instance USART0 and the port C on the GD32H7 address map. -/
theorem clk_enable_supported_idempotent_witness :
    gd32_uart_clk_enable gd32h7 uart1_pa9_pa10 =
      (0, [Call.rcu_periph_clock_enable rcu_periph_enum.RCU_USART0]) ∧
    gd32_gpio_clk_enable gd32h7 0x58020800 =
      (0, [Call.rcu_periph_clock_enable rcu_periph_enum.RCU_GPIOC]) :=
  have w := clk_enable_supported_idempotent gd32h7 (by decide) (by decide) UartId.USART0
    (by decide) uart1_pa9_pa10 (by decide) GpioId.C ∅
  ⟨w.1, w.2.1⟩

/-- C9: for the descriptor named `uartN`, `N` in 1..5, paired with the instance of
`BSP_USING_UARTN` (USART0, USART1, USART2, UART3, UART4), `gd32_gpio_configure` issues
exactly two `gpio_af_set` calls, for the transmit pin and then the receive pin, both with
`GPIO_AF_7` when the instance is USART0, USART1 or USART2 and both with `GPIO_AF_8` when
it is UART3 or UART4. -/
theorem gd32_gpio_configure_alternate_function (b : Board) (u : UartId)
    (config : gd32_uart_config) (hname : config.name = u.name)
    (hinst : config.«instance» = b.uart_addr u) (tx_port tx_pin rx_port rx_pin : Nat)
    (htx : get_pin_by_name b config.tx_pin_name = some (tx_port, tx_pin))
    (hrx : get_pin_by_name b config.rx_pin_name = some (rx_port, rx_pin)) :
    ∃ trace, gd32_gpio_configure b config = some (0, trace) ∧
      af_calls trace = [(tx_port, u.af, tx_pin), (rx_port, u.af, rx_pin)] := by
  have hc4 : ∃ c4 : Int, c_index config.name 4 = some c4 ∧
      (if c4 - 48 ≤ 3 then SdkConst.GPIO_AF_7 else SdkConst.GPIO_AF_8) = u.af := by
    rw [hname]
    cases u
    · exact ⟨49, rfl, rfl⟩
    · exact ⟨50, rfl, rfl⟩
    · exact ⟨51, rfl, rfl⟩
    · exact ⟨52, rfl, rfl⟩
    · exact ⟨53, rfl, rfl⟩
  obtain ⟨c4, hc4, haf⟩ := hc4
  refine ⟨_, gd32_gpio_configure_of_decoded b config c4 _ _ _ _ hc4 htx hrx, ?_⟩
  rw [haf]
  have e : af_calls (port_clocks b tx_port rx_port) = [] := by
    unfold port_clocks
    rcases gd32_gpio_clk_enable_trace b tx_port with h1 | ⟨p1, h1⟩ <;>
      rcases gd32_gpio_clk_enable_trace b rx_port with h2 | ⟨p2, h2⟩ <;>
        rw [h1, h2] <;> split_ifs <;> rfl
  have app : ∀ s t : List Call, af_calls (s ++ t) = af_calls s ++ af_calls t := by
    intro s t
    simp [af_calls]
  rw [app, e]
  rfl

/-- The descriptor `uart4` with the instance UART3, on pins PA0 and PA1. -/
theorem gd32_gpio_configure_alternate_function_witness :
    ∃ trace,
      gd32_gpio_configure gd32h7
        { name := ['u', 'a', 'r', 't', '4'], «instance» := 0x40004C00, irq_type := 52,
          tx_pin_name := ['P', 'A', '0'], rx_pin_name := ['P', 'A', '1'] } = some (0, trace) ∧
      af_calls trace =
        [(0x58020000, SdkConst.GPIO_AF_8, 1), (0x58020000, SdkConst.GPIO_AF_8, 2)] :=
  gd32_gpio_configure_alternate_function gd32h7 UartId.UART3
    { name := ['u', 'a', 'r', 't', '4'], «instance» := 0x40004C00, irq_type := 52,
      tx_pin_name := ['P', 'A', '0'], rx_pin_name := ['P', 'A', '1'] }
    (by decide) (by decide) 0x58020000 1 0x58020000 2 (by decide) (by decide)

/-- C10: when the ports `GPIOA..GPIOH` are distinct and lie at the uniform stride
`GPIOB - GPIOA`, on an address map where the 32-bit arithmetic of the decoder does not
wrap (no multiple `d * (GPIOB - GPIOA)`, `1 ≤ d ≤ 25`, is a multiple of `2 ^ 32`, as on
the GD32H7xx map with its stride of `0x400`), then for every pin name that decodes and
has an ASCII letter of either case at alphabet position `k` as second character, `gd32_gpio_clk_enable` on the decoded port
returns 0 exactly when the letter is one of `A..H` or `a..h`, enabling the clock of the
port with that letter; for every other letter it returns -1 and enables nothing. -/
theorem gpio_gate_agrees_with_decoder (b : Board) (hd : b.gpio_distinct)
    (hs : b.uniform_stride) (hw : b.no_wrap) (c0 L : Char) (rest : List Char) (k : Nat)
    (hk : k < 26) (hL : L.toNat = 'A'.toNat + k ∨ L.toNat = 'a'.toNat + k) (port pin : Nat)
    (hdec : get_pin_by_name b (c0 :: L :: rest) = some (port, pin)) :
    ((gd32_gpio_clk_enable b port).1 = 0 ↔ k < 8) ∧
    (∀ g : GpioId, g.index = k →
      gd32_gpio_clk_enable b port = (0, [Call.rcu_periph_clock_enable g.rcu])) ∧
    (8 ≤ k → gd32_gpio_clk_enable b port = (-1, [])) := by
  have hport := get_pin_by_name_port b c0 L rest k hk hL port pin hdec
  have hsup : ∀ g : GpioId, g.index = k →
      gd32_gpio_clk_enable b port = (0, [Call.rcu_periph_clock_enable g.rcu]) := by
    intro g hg
    rw [hport, ← hg, ← hs g]
    exact gd32_gpio_clk_enable_of_supported b hd g
  have hunsup : 8 ≤ k → gd32_gpio_clk_enable b port = (-1, []) := by
    intro h8
    rw [hport]
    exact gd32_gpio_clk_enable_of_unsupported b _ (not_gpio_supported_of_ge b hs hw k hk h8)
  refine ⟨⟨fun h0 => ?_, fun h8 => ?_⟩, hsup, hunsup⟩
  · by_contra hge
    rw [hunsup (by omega)] at h0
    exact absurd h0 (by decide)
  · obtain ⟨g, hg⟩ := GpioId.exists_index k h8
    rw [hsup g hg]

/-- The names `PJ8` and `pc13` on the GD32H7 address map: -1 for port J, the clock of
port C for `c`. -/
theorem gpio_gate_agrees_with_decoder_witness :
    gd32_gpio_clk_enable gd32h7 0x58022400 = (-1, []) ∧
    gd32_gpio_clk_enable gd32h7 0x58020800 =
      (0, [Call.rcu_periph_clock_enable rcu_periph_enum.RCU_GPIOC]) :=
  ⟨(gpio_gate_agrees_with_decoder gd32h7 (by decide) (by decide) (by decide) 'P' 'J'
      ['8'] 9 (by decide) (by decide) 0x58022400 256 (by decide)).2.2 (by decide),
   (gpio_gate_agrees_with_decoder gd32h7 (by decide) (by decide) (by decide) 'P' 'c'
      ['1', '3'] 2 (by decide) (by decide) 0x58020800 8192 (by decide)).2.1 GpioId.C rfl⟩
end DrvUsart
